import Mathlib

/-
  Verification of the retrieval-augmented query pipeline of the
  egy-new-labor-rag repository (src/rag.py, src/api.py, src/app.py).

  The Python code is shallowly embedded: each remote HTTP call is
  modelled by passing the response as an explicit argument (an oracle),
  and a raised Python exception is modelled by the Except monad.
  Functions that additionally report how many remote requests were
  issued return a pair whose second component counts the request
  call sites actually executed.
-/

namespace LaborRag

/-- A text fragment of the corpus, one entry of chunks.json:
a JSON object with fields id and content (src/rag.py, load_files). -/
structure Fragment where
  id : String
  content : String
  deriving Repr, DecidableEq

/-- A search hit produced by LaborRAG.search_index: the dictionary
with keys id and content built at src/rag.py lines 136-141. -/
structure SearchHit where
  id : String
  content : String
  deriving Repr, DecidableEq

/-- The loop body of LaborRAG.search_index (src/rag.py lines 127-144):
for each row number produced by the FAISS index, skip it when it is
negative or not smaller than len(chunks) (the out-of-bounds guard at
line 129), otherwise append the id/content pair of the fragment at that
position; a failed positional access (the except IndexError branch at
line 142) likewise skips the row. -/
def searchLoop (chunks : List Fragment) : List Int → List SearchHit → List SearchHit
  | [], acc => acc
  | idx :: rest, acc =>
    if idx < 0 ∨ (chunks.length : Int) ≤ idx then
      searchLoop chunks rest acc
    else
      match chunks.get? idx.toNat with
      | some c => searchLoop chunks rest (acc ++ [⟨c.id, c.content⟩])
      | none => searchLoop chunks rest acc

/-- LaborRAG.search_index (src/rag.py lines 114-151), restricted to its
pure part: the FAISS call itself is external, so the row numbers it
returned are taken as the argument. When no row survives the bounds
check the function returns the empty list (lines 146-148). -/
def search_index (rows : List Int) (chunks : List Fragment) : List SearchHit :=
  searchLoop chunks rows []

/-- The resolution of one row number used to characterise search_index:
rows outside the interval from 0 to the fragment count resolve to
nothing, in-range rows resolve to the fragment at that position. -/
def resolveRow (chunks : List Fragment) (idx : Int) : Option SearchHit :=
  if idx < 0 then none
  else (chunks.get? idx.toNat).map (fun c => ⟨c.id, c.content⟩)

/-- The three-fragment demonstration corpus of the specification
scenario. -/
def demoChunks : List Fragment := [⟨"1", "A"⟩, ⟨"2", "B"⟩, ⟨"3", "C"⟩]

/-- A relevance score carried verbatim from the rerank response.  The
pipeline never computes with scores, it only stores them, so the float
value is modelled by an opaque integer label. -/
abbrev Score := Int

/-- A JSON value found in the document field of one rerank response
entry: either a plain JSON string or a JSON object, modelled as its
string-valued fields.  LaborRAG.rerank_results stores this value
verbatim (src/rag.py line 196), and LaborRAG.build_prompt later indexes
it with the key text (line 232). -/
inductive DocVal where
  | str (s : String)
  | obj (fields : List (String × String))
  deriving Repr, DecidableEq

/-- Python subscript access doc with the key text: defined only on an
object that has the field, as in result document text at src/rag.py
line 232. -/
def DocVal.textField : DocVal → Option String
  | .str _ => none
  | .obj fields => (fields.find? (fun p => p.1 = "text")).map Prod.snd

/-- One entry of the rerank response results array
(src/rag.py lines 185-197): a position reference into the submitted
batch, the document value, and an optional relevance score
(item.get with default 0 at line 197). -/
structure RerankItem where
  index : Int
  document : DocVal
  relevance_score : Option Score
  deriving Repr, DecidableEq

/-- The rerank HTTP response: status code and the results array of the
decoded JSON body. -/
structure RerankResponse where
  status : Nat
  results : List RerankItem
  deriving Repr, DecidableEq

/-- One reranked result as assembled at src/rag.py lines 194-200:
the response document value kept verbatim, the score (default 0), and
the article id of the candidate the response entry points at. -/
structure RankedHit where
  document : DocVal
  relevance_score : Score
  article_id : String
  deriving Repr, DecidableEq

/-- self.rerank_result_count, the top_n sent to the rerank endpoint
(src/rag.py lines 48 and 177). -/
def rerank_result_count : Nat := 5

/-- The loop over result results in LaborRAG.rerank_results
(src/rag.py lines 185-205): entries whose index is negative or not
smaller than the candidate count are skipped (the guard at line 187),
surviving entries are joined with the id of the candidate at that
position; a failed access (the except branch at line 201) also skips. -/
def rerankLoop (documents : List SearchHit) : List RerankItem → List RankedHit → List RankedHit
  | [], acc => acc
  | item :: rest, acc =>
    if item.index < 0 ∨ (documents.length : Int) ≤ item.index then
      rerankLoop documents rest acc
    else
      match documents.get? item.index.toNat with
      | some d =>
          rerankLoop documents rest
            (acc ++ [⟨item.document, item.relevance_score.getD 0, d.id⟩])
      | none => rerankLoop documents rest acc

/-- LaborRAG.rerank_results (src/rag.py lines 153-216).  The remote
response is the oracle argument; the second component of the result
counts how many remote requests the call issued (the make_request call
site at line 179 runs exactly when the candidate list is non-empty).
A non-success status raises (lines 213-216), modelled by Except.error. -/
def rerank_results (query : String) (documents : List SearchHit) (resp : RerankResponse) :
    Except String (List RankedHit) × Nat :=
  if documents = [] then (Except.ok [], 0)
  else if resp.status = 200 then (Except.ok (rerankLoop documents resp.results []), 1)
  else (Except.error "Rerank API failed", 1)

/-- The resolution of one rerank response entry used to characterise
rerank_results: out-of-range position references resolve to nothing,
in-range ones to the joined ranked hit. -/
def resolveRerankItem (documents : List SearchHit) (item : RerankItem) : Option RankedHit :=
  if item.index < 0 then none
  else (documents.get? item.index.toNat).map
    (fun d => ⟨item.document, item.relevance_score.getD 0, d.id⟩)

/-- Concrete candidate list for the rerank bound analysis. -/
def c3docs : List SearchHit := [⟨"1", "A"⟩, ⟨"2", "B"⟩]

/-- A well-formed 200 rerank response carrying three result entries,
each referencing a valid position of the two-candidate batch. -/
def c3resp : RerankResponse :=
  ⟨200, [⟨0, .str "x", none⟩, ⟨1, .str "y", none⟩, ⟨0, .str "z", none⟩]⟩

/-- The embedding HTTP response: status code and the embeddings of the
data array of the decoded body.  Float vector entries are only carried,
never computed with here, so they are modelled by integer labels. -/
structure EmbedResponse where
  status : Nat
  data : List (List Score)
  deriving Repr, DecidableEq

/-- LaborRAG.embed_query (src/rag.py lines 91-112), with the remote
response as the oracle argument.  A non-success status raises
(lines 110-112); an empty data array would make the positional access
at line 108 raise an uncaught IndexError. -/
def embed_query (resp : EmbedResponse) : Except String (List Score) :=
  if resp.status = 200 then
    match resp.data.head? with
    | some e => Except.ok e
    | none => Except.error "IndexError: embeddings data is empty"
  else Except.error "Embedding API failed"

/-- The chat-completions HTTP response: status code and the message
contents of the choices array of the decoded body. -/
structure LLMResponse where
  status : Nat
  choices : List String
  deriving Repr, DecidableEq

/-- LaborRAG.call_llm (src/rag.py lines 268-291), with the remote
response as the oracle argument.  A non-success status raises
(line 291); an empty choices array would make the positional access at
line 288 raise an uncaught IndexError. -/
def call_llm (prompt : String) (resp : LLMResponse) : Except String String :=
  if resp.status = 200 then
    match resp.choices.head? with
    | some c => Except.ok c
    | none => Except.error "IndexError: choices is empty"
  else Except.error "LLM API failed"

/-- The context accumulation loop of LaborRAG.build_prompt
(src/rag.py lines 229-232).  Each ranked hit contributes the block
for its article, reading the document value with the subscript text:
a plain string document raises TypeError, an object without the text
field raises KeyError, both uncaught. -/
def contextLoop : List RankedHit → String → Except String String
  | [], acc => Except.ok acc
  | r :: rest, acc =>
    match r.document with
    | .str _ => Except.error "TypeError: string indices must be integers"
    | .obj fields =>
      match (fields.find? (fun p => p.1 = "text")).map Prod.snd with
      | some t =>
          contextLoop rest (acc ++ "[Article " ++ r.article_id ++ "]:\n" ++ t ++ "\n\n")
      | none => Except.error "KeyError: text"

/-- LaborRAG.build_prompt (src/rag.py lines 218-266): the context
string folded over the ranked hits, spliced into the fixed template
together with the reference chunk and the user query.  The template
text reproduces the structure and wording of the Python f-string;
markdown quotation marks of the original are elided. -/
def build_prompt (user_query : String) (reranked_results : List RankedHit)
    (reference_chunk : String) : Except String String :=
  (contextLoop reranked_results "").map (fun context_str =>
    "\n### ROLE\nYou are an expert legal assistant specializing in Egyptian Labor Law.\nYour task is to answer the query of the user strictly using the provided context.\n\n### REFERENCE DEFINITIONS (Global Context)\nThe following text contains the official definitions of legal terms used in this law.\nConsult this section to understand the precise meaning of words like Worker, Employer, Wage, etc.\n--------------------------------------------------\n"
    ++ reference_chunk ++
    "\n--------------------------------------------------\n\n### RELEVANT ARTICLES (Specific Context)\nThe following text contains the specific legal articles retrieved for this query.\n--------------------------------------------------\n"
    ++ context_str ++
    "\n--------------------------------------------------\n\n### USER QUERY\n"
    ++ user_query ++
    "\n\n### INSTRUCTIONS\n1. Analyze: First, look up any key terms in the Reference Definitions to ensure you interpret them correctly.\n2. Synthesize: Answer the query using only the information found in the Relevant Articles section.\n3. Format: Structure your response with clear sections and bullet points where appropriate for better readability.\n4. Cite: At the end of every claim or statement, cite the article ID in brackets, e.g., [Article 12] or [Article 48] for english query.\n5. Language: Always answer in the same language as the query, for both the body and the citations; for example, if the query is in Arabic, respond in Arabic.\n6. Tone: Professional, precise, and legal.\n7. Unknowns: If the answer is not in the provided text, state: The provided documents do not contain this information. in the same language as the query. Do not hallucinate. If the query is unrelated to Egyptian Labor Law, politely decline to answer.\n8. Out of Scope: Do not provide legal advice or opinions beyond the scope of the Egyptian Labor Law. If asked for interpretations, refer only to the text.\n\n### ANSWER\n")

/-- LaborRAG.run_query (src/rag.py lines 360-387): embed, search,
abort with the empty answer when no search result (lines 375-377),
rerank, abort with the empty answer when no reranked result
(lines 381-383), then build the prompt around chunks[0] (line 385,
an uncaught IndexError when the chunk list is empty) and call the
model.  The three remote responses and the row numbers the FAISS
index returns for the embedded query are the oracle arguments. -/
def run_query (query : String) (chunks : List Fragment) (embedResp : EmbedResponse)
    (rows : List Int) (rerankResp : RerankResponse) (llmResp : LLMResponse) :
    Except String String :=
  match embed_query embedResp with
  | Except.error e => Except.error e
  | Except.ok _embedding =>
    let results := search_index rows chunks
    if results = [] then Except.ok ""
    else
      match (rerank_results query results rerankResp).1 with
      | Except.error e => Except.error e
      | Except.ok reranked =>
        if reranked = [] then Except.ok ""
        else
          match chunks.head? with
          | none => Except.error "IndexError: chunks is empty"
          | some c0 =>
            match build_prompt query reranked c0.content with
            | Except.error e => Except.error e
            | Except.ok prompt => call_llm prompt llmResp

/-- Python comparison of a character against the bounds of the Arabic
code block, as written at src/app.py line 233 and src/rag.py line 304:
true for every code point from 0x600 to 0x6FF, letters and non-letters
alike. -/
def inArabicRange (c : Char) : Bool :=
  decide (0x600 ≤ c.toNat ∧ c.toNat ≤ 0x6FF)

/-- Model of the Python built-in str.isalpha restricted to the scripts
this code base exercises: the ASCII Latin letters and the Arabic-script
letters of the 0x600 block.  Combining marks (0x610-0x61A, 0x64B-0x65F),
the Arabic-Indic digits (0x660-0x669, 0x6F0-0x6F9) and punctuation in
the block are not alphabetic, matching Python. -/
def pyIsAlpha (c : Char) : Bool :=
  decide ((('a' ≤ c ∧ c ≤ 'z') ∨ ('A' ≤ c ∧ c ≤ 'Z') ∨
    (0x620 ≤ c.toNat ∧ c.toNat ≤ 0x64A) ∨ (0x66E ≤ c.toNat ∧ c.toNat ≤ 0x66F) ∨
    (0x671 ≤ c.toNat ∧ c.toNat ≤ 0x6D3) ∨ c.toNat = 0x6D5 ∨
    (0x6E5 ≤ c.toNat ∧ c.toNat ≤ 0x6E6) ∨ (0x6EE ≤ c.toNat ∧ c.toNat ≤ 0x6EF) ∨
    (0x6FA ≤ c.toNat ∧ c.toNat ≤ 0x6FC) ∨ c.toNat = 0x6FF))

/-- detect_language (src/app.py lines 231-235): the count of characters
inside the Arabic code block against the count of alphabetic characters;
rtl exactly when there is at least one alphabetic character and the
block count is more than half the alphabetic count.  The Python float
comparison ratio greater than one half is rendered exactly as
total smaller than twice the block count. -/
def detect_language (text : String) : String :=
  let arabic_chars := text.toList.countP inArabicRange
  let total_chars := text.toList.countP pyIsAlpha
  if 0 < total_chars ∧ total_chars < 2 * arabic_chars then "rtl" else "ltr"

/-- The direction classifier as the specification words it (section 4.7
and claim C6): counts alphabetic characters belonging to the designated
script range versus all alphabetic characters.  Written from the
specification, to be compared with detect_language, which is written
from the source. -/
def detectDirectionSpec (text : String) : String :=
  let arabicAlpha := text.toList.countP (fun c => pyIsAlpha c && inArabicRange c)
  let totalAlpha := text.toList.countP pyIsAlpha
  if 0 < totalAlpha ∧ totalAlpha < 2 * arabicAlpha then "rtl" else "ltr"

/-- The whitespace set stripped by the Python built-in str.strip with
no argument: space, tab, newline, carriage return, vertical tab and
form feed. -/
def pyIsSpace (c : Char) : Bool :=
  decide (c = ' ' ∨ c = '\t' ∨ c = '\n' ∨ c = '\r' ∨ c.toNat = 0xB ∨ c.toNat = 0xC)

/-- The Python built-in str.strip with no argument: removes leading and
trailing whitespace. -/
def pyStrip (s : String) : String :=
  String.mk (((s.toList.dropWhile pyIsSpace).reverse.dropWhile pyIsSpace).reverse)

/-- The character set of the lstrip call at src/rag.py line 343:
digits, period, hyphen, closing parenthesis and space. -/
def markerChars : List Char :=
  ['0', '1', '2', '3', '4', '5', '6', '7', '8', '9', '.', '-', ')', ' ']

/-- The Python built-in str.lstrip with the marker set: removes the
leading run of marker characters. -/
def pyLStripMarkers (s : String) : String :=
  String.mk (s.toList.dropWhile (fun c => markerChars.contains c))

/-- The response parsing of LaborRAG.generate_related_questions
(src/rag.py lines 341-348): strip the completion, split it on line
breaks, keep the non-blank lines stripped of whitespace and leading
enumeration markers, keep only lines longer than ten characters, and
truncate to the first three. -/
def parse_questions (content : String) : List String :=
  let lines := (pyStrip content).splitOn "\n"
  let questions := lines.filterMap (fun q =>
    if pyStrip q = "" then none else some (pyLStripMarkers (pyStrip q)))
  (questions.filter (fun q => 10 < q.length)).take 3

/-- LaborRAG.generate_related_questions (src/rag.py lines 293-358).
The oracle argument is the outcome of the remote call: Except.error
stands for a request that raised, Except.ok for a decoded response.
The try block at lines 337-358 turns any raise (request failure, or
the positional access into an empty choices array) into the empty
list, and a non-success status also returns the empty list.  The
language detection at lines 304-308 feeds only the prompt text. -/
def generate_related_questions (original_query : String) (answer : String)
    (resp : Except Unit LLMResponse) : List String :=
  let arabic_chars := original_query.toList.countP inArabicRange
  let total_chars := original_query.toList.countP pyIsAlpha
  let language :=
    if 0 < total_chars ∧ total_chars < 2 * arabic_chars then "Arabic" else "English"
  let prompt :=
    "Based on this Egyptian Labor Law query and answer, generate exactly 3 related follow-up questions that a user might want to ask next.\n\nOriginal Query: "
    ++ original_query ++ "\nAnswer Summary: " ++ answer.take 400 ++
    "...\n\nGenerate questions in " ++ language ++
    " that:\n1. Explore related aspects of the same topic (e.g., exceptions, special cases)\n2. Ask about related rights or obligations mentioned but not fully covered\n3. Inquire about practical applications or procedures\n\nRequirements:\n- Generate EXACTLY 3 questions\n- Each question on a new line\n- Do NOT number the questions\n- Keep questions concise (under 15 words)\n- Make them specific to Egyptian Labor Law\n- Use "
    ++ language ++ " language only\n\nQuestions:"
  match resp with
  | Except.error _ => []
  | Except.ok r =>
    if r.status = 200 then
      match r.choices.head? with
      | some content =>
          let _ := prompt
          parse_questions content
      | none => []
    else []

/-- The outcome of LaborRAG.load_files: an exception propagated
uncaught to the caller, a process exit, or both artifacts loaded with
the vector count and fragment count recorded by the log line at
src/rag.py lines 65-67. -/
inductive LoadOutcome where
  | raised (msg : String)
  | exited (code : Nat)
  | loaded (nVectors : Nat) (nChunks : Nat)
  deriving Repr, DecidableEq

/-- LaborRAG.load_files (src/rag.py lines 54-72).  Each artifact is
modelled by an optional value, none standing for an absent file.  The
index artifact is read first by faiss.read_index (line 62), which
raises RuntimeError on a missing file; the except clause at line 68
names only FileNotFoundError, so that exception propagates to the
caller uncaught.  The chunk file is then opened by the Python built-in
open (line 63), which raises FileNotFoundError on a missing file: that
one is caught and the process exits with status 1 (line 72).  On
success the vector count of the index and the length of the chunk list
are recorded. -/
def load_files (indexArtifact : Option Nat) (chunksArtifact : Option (List Fragment)) :
    LoadOutcome :=
  match indexArtifact with
  | none => LoadOutcome.raised "RuntimeError: could not open index file"
  | some ntotal =>
    match chunksArtifact with
    | none => LoadOutcome.exited 1
    | some chunks => LoadOutcome.loaded ntotal chunks.length

/-- The JSON body returned by the ask endpoint, as a record of the
fields present: src/api.py line 56 returns a body whose only field is
the answer. -/
structure AskBody where
  answer : Option String
  related_questions : Option (List String)
  deriving Repr, DecidableEq

/-- The outcome of one call of the ask endpoint: an HTTP error raised
as an HTTPException, or a JSON body. -/
inductive AskOutcome where
  | httpError (status : Nat)
  | ok (body : AskBody)
  deriving Repr, DecidableEq

/-- ask_question (src/api.py lines 30-60), with the pipeline outcome of
run_query as the oracle argument.  A missing or empty query field and
an empty answer raise HTTPExceptions inside the try block; the catch-all
at lines 58-60 re-raises every exception, the HTTPExceptions included,
as status 500.  On success the returned body carries the answer field
only: no related-questions field is ever present, and the boundary
never invokes generate_related_questions (no call site exists in
src/api.py). -/
def ask_question (queryField : Option String) (pipeline : Except String String) :
    AskOutcome :=
  match queryField with
  | none => AskOutcome.httpError 500
  | some q =>
    if q = "" then AskOutcome.httpError 500
    else
      match pipeline with
      | Except.error _ => AskOutcome.httpError 500
      | Except.ok ans =>
        if ans = "" then AskOutcome.httpError 500
        else AskOutcome.ok ⟨some ans, none⟩

end LaborRag

namespace LaborRag

theorem searchLoop_eq_append (chunks : List Fragment) :
    ∀ (rows : List Int) (acc : List SearchHit),
      searchLoop chunks rows acc = acc ++ rows.filterMap (resolveRow chunks) := by
  intro rows
  induction rows with
  | nil => intro acc; simp [searchLoop]
  | cons idx rest ih =>
    intro acc
    simp only [searchLoop]
    by_cases hout : idx < 0 ∨ (chunks.length : Int) ≤ idx
    · have hres : resolveRow chunks idx = none := by
        unfold resolveRow
        rcases hout with hneg | hbig
        · simp [hneg]
        · have hnone : chunks.get? idx.toNat = none :=
            List.get?_eq_none.mpr (by omega)
          have hneg : ¬ idx < 0 := by omega
          rw [if_neg hneg, hnone]
          rfl
      rw [if_pos hout, ih, List.filterMap_cons, hres]
    · push_neg at hout
      obtain ⟨hneg, hltI⟩ := hout
      have hltN : idx.toNat < chunks.length := by omega
      have hget : chunks.get? idx.toNat = some (chunks.get ⟨idx.toNat, hltN⟩) :=
        List.get?_eq_get hltN
      have hres : resolveRow chunks idx =
          some ⟨(chunks.get ⟨idx.toNat, hltN⟩).id, (chunks.get ⟨idx.toNat, hltN⟩).content⟩ := by
        unfold resolveRow
        have hneg2 : ¬ idx < 0 := by omega
        rw [if_neg hneg2, hget]
        rfl
      rw [if_neg (by omega)]
      simp only [hget]
      rw [ih, List.filterMap_cons, hres]
      simp

/-- C1: search_index keeps exactly the rows idx with 0 ≤ idx < number of
fragments, resolving each in-range row positionally and preserving the
order in which the index returned the rows (it is a filterMap of the row
list, hence total: no row ever raises); on the three-fragment scenario
corpus with rows 0, 5, 1 the output is exactly the hits for fragments
1 and 2, row 5 being dropped. -/
theorem search_index_bounds_and_order :
    (∀ (rows : List Int) (chunks : List Fragment),
      search_index rows chunks = rows.filterMap (resolveRow chunks) ∧
      ∀ h ∈ search_index rows chunks,
        ∃ i : Fin chunks.length, (chunks.get i).id = h.id ∧
          (chunks.get i).content = h.content) ∧
    search_index [0, 5, 1] demoChunks = [⟨"1", "A"⟩, ⟨"2", "B"⟩] := by
  constructor
  · intro rows chunks
    have heq : search_index rows chunks = rows.filterMap (resolveRow chunks) := by
      simpa [search_index] using searchLoop_eq_append chunks rows []
    refine ⟨heq, ?_⟩
    intro h hmem
    rw [heq] at hmem
    obtain ⟨idx, _, hres⟩ := List.mem_filterMap.mp hmem
    unfold resolveRow at hres
    by_cases hneg : idx < 0
    · simp [hneg] at hres
    · simp only [hneg, if_false, Option.map_eq_some'] at hres
      obtain ⟨c, hget, hch⟩ := hres
      have hlt : idx.toNat < chunks.length := (List.get?_eq_some.mp hget).1
      have hg : chunks.get ⟨idx.toNat, hlt⟩ = c := by
        have hgg : chunks.get? idx.toNat = some (chunks.get ⟨idx.toNat, hlt⟩) :=
          List.get?_eq_get hlt
        rw [hgg] at hget
        exact Option.some.inj hget
      refine ⟨⟨idx.toNat, hlt⟩, ?_, ?_⟩
      · rw [hg, ← hch]
      · rw [hg, ← hch]
  · decide

/-- Witness for C1 at a concrete input: on the scenario corpus the hit
for fragment 1 returned by search_index is resolved from position 0 of
the fragment store. -/
theorem search_index_bounds_and_order_witness :
    ∃ i : Fin demoChunks.length,
      (demoChunks.get i).id = ("1" : String) ∧ (demoChunks.get i).content = ("A" : String) :=
  (search_index_bounds_and_order.1 [0, 5, 1] demoChunks).2 ⟨"1", "A"⟩ (by decide)

theorem rerankLoop_eq_append (documents : List SearchHit) :
    ∀ (items : List RerankItem) (acc : List RankedHit),
      rerankLoop documents items acc = acc ++ items.filterMap (resolveRerankItem documents) := by
  intro items
  induction items with
  | nil => intro acc; simp [rerankLoop]
  | cons item rest ih =>
    intro acc
    simp only [rerankLoop]
    by_cases hout : item.index < 0 ∨ (documents.length : Int) ≤ item.index
    · have hres : resolveRerankItem documents item = none := by
        unfold resolveRerankItem
        rcases hout with hneg | hbig
        · simp [hneg]
        · have hnone : documents.get? item.index.toNat = none :=
            List.get?_eq_none.mpr (by omega)
          have hneg : ¬ item.index < 0 := by omega
          rw [if_neg hneg, hnone]
          rfl
      rw [if_pos hout, ih, List.filterMap_cons, hres]
    · push_neg at hout
      obtain ⟨hneg, hltI⟩ := hout
      have hltN : item.index.toNat < documents.length := by omega
      have hget : documents.get? item.index.toNat = some (documents.get ⟨item.index.toNat, hltN⟩) :=
        List.get?_eq_get hltN
      have hres : resolveRerankItem documents item =
          some ⟨item.document, item.relevance_score.getD 0,
            (documents.get ⟨item.index.toNat, hltN⟩).id⟩ := by
        unfold resolveRerankItem
        have hneg2 : ¬ item.index < 0 := by omega
        rw [if_neg hneg2, hget]
        rfl
      rw [if_neg (by omega)]
      simp only [hget]
      rw [ih, List.filterMap_cons, hres]
      simp

theorem rerank_results_ok_char (query : String) (documents : List SearchHit)
    (resp : RerankResponse) (l : List RankedHit)
    (h : (rerank_results query documents resp).1 = Except.ok l) :
    l = if documents = [] then []
        else resp.results.filterMap (resolveRerankItem documents) := by
  unfold rerank_results at h
  by_cases hd : documents = []
  · simp [hd] at h
    simp [hd, h.symm]
  · by_cases hs : resp.status = 200
    · simp [hd, hs] at h
      rw [if_neg hd, ← h]
      simpa using rerankLoop_eq_append documents resp.results []
    · simp [hd, hs] at h

theorem resolveRerankItem_some {documents : List SearchHit} {item : RerankItem}
    {hit : RankedHit} (h : resolveRerankItem documents item = some hit) :
    hit.document = item.document ∧ ∃ d ∈ documents, hit.article_id = d.id := by
  unfold resolveRerankItem at h
  by_cases hneg : item.index < 0
  · simp [hneg] at h
  · simp only [hneg, if_false, Option.map_eq_some'] at h
    obtain ⟨d, hget, hh⟩ := h
    have hltd : item.index.toNat < documents.length := (List.get?_eq_some.mp hget).1
    have hg : documents.get ⟨item.index.toNat, hltd⟩ = d := by
      have hgg : documents.get? item.index.toNat =
          some (documents.get ⟨item.index.toNat, hltd⟩) := List.get?_eq_get hltd
      rw [hgg] at hget
      exact Option.some.inj hget
    refine ⟨by rw [← hh], d, ?_, by rw [← hh]⟩
    rw [← hg]
    exact List.get_mem documents item.index.toNat hltd

/-- Counterexample to C3 as stated: against the two candidates of
c3docs, the 200 response c3resp carries three result entries, each with
a valid position reference, and rerank_results returns all three ranked
hits, exceeding min of the configured top_n and the candidate count
(which is 2): the code never caps the output length against the
requested top_n. -/
theorem rerank_results_exceeds_topn_bound :
    (rerank_results "q" c3docs c3resp).1 =
      Except.ok [⟨.str "x", 0, "1"⟩, ⟨.str "y", 0, "2"⟩, ⟨.str "z", 0, "1"⟩] ∧
    min rerank_result_count c3docs.length < 3 := by
  constructor
  · rfl
  · decide

/-- C3 amended: for every query, candidate list and remote response on
which rerank_results succeeds, every returned item carries the fragment
id of some submitted candidate, the number of returned items is at most
the number of result entries in the response, and in particular the
min(topN, candidate count) bound of the claim holds whenever the remote
response honours the requested top_n by carrying at most that many
entries. -/
theorem rerank_results_bounds (query : String) (documents : List SearchHit)
    (resp : RerankResponse) (l : List RankedHit)
    (h : (rerank_results query documents resp).1 = Except.ok l) :
    l.length ≤ resp.results.length ∧
    (∀ hit ∈ l, ∃ d ∈ documents, hit.article_id = d.id) ∧
    (resp.results.length ≤ min rerank_result_count documents.length →
      l.length ≤ min rerank_result_count documents.length) := by
  have hl := rerank_results_ok_char query documents resp l h
  by_cases hd : documents = []
  · subst hd
    simp at hl
    subst hl
    simp
  · rw [if_neg hd] at hl
    subst hl
    refine ⟨List.length_filterMap_le _ _, ?_, ?_⟩
    · intro hit hmem
      obtain ⟨item, _, hres⟩ := List.mem_filterMap.mp hmem
      exact (resolveRerankItem_some hres).2
    · intro hbound
      calc (resp.results.filterMap (resolveRerankItem documents)).length
          ≤ resp.results.length := List.length_filterMap_le _ _
        _ ≤ min rerank_result_count documents.length := hbound

/-- Witness for the amended C3 at a concrete input: a single candidate
and a 200 response with one valid entry. -/
theorem rerank_results_bounds_witness :
    ([⟨DocVal.obj [("text", "A")], 1, "1"⟩] : List RankedHit).length ≤
      ([⟨0, DocVal.obj [("text", "A")], some 1⟩] : List RerankItem).length ∧
    (∀ hit ∈ ([⟨DocVal.obj [("text", "A")], 1, "1"⟩] : List RankedHit),
      ∃ d ∈ ([⟨"1", "A"⟩] : List SearchHit), hit.article_id = d.id) ∧
    (([⟨0, DocVal.obj [("text", "A")], some 1⟩] : List RerankItem).length ≤
        min rerank_result_count ([⟨"1", "A"⟩] : List SearchHit).length →
      ([⟨DocVal.obj [("text", "A")], 1, "1"⟩] : List RankedHit).length ≤
        min rerank_result_count ([⟨"1", "A"⟩] : List SearchHit).length) :=
  rerank_results_bounds "q" [⟨"1", "A"⟩] ⟨200, [⟨0, DocVal.obj [("text", "A")], some 1⟩]⟩
    [⟨DocVal.obj [("text", "A")], 1, "1"⟩] (by rfl)

/-- C4: reranking an empty candidate list returns the empty list with
zero remote requests issued, for every query and whatever the remote
would have answered. -/
theorem rerank_empty_short_circuit :
    ∀ (query : String) (resp : RerankResponse),
      rerank_results query [] resp = (Except.ok [], 0) := by
  intro query resp
  rfl

theorem embed_query_of_success (resp : EmbedResponse) (h200 : resp.status = 200)
    (hne : resp.data ≠ []) : ∃ e, embed_query resp = Except.ok e := by
  unfold embed_query
  rw [if_pos h200]
  cases hdl : resp.data with
  | nil => exact absurd hdl hne
  | cons x xs => exact ⟨x, rfl⟩

theorem search_index_nil (rows : List Int) : search_index rows [] = [] := by
  have h := searchLoop_eq_append [] rows []
  simp only [search_index]
  rw [h, List.nil_append, List.filterMap_eq_nil_iff]
  intro idx _
  unfold resolveRow
  by_cases hneg : idx < 0
  · simp [hneg]
  · simp [hneg]

/-- C2: whenever the embedding call succeeded, run_query returns the
empty string and does not raise as soon as the search stage yields no
hit, and likewise as soon as the rerank stage yields no result. -/
theorem run_query_degrades_to_empty (query : String) (chunks : List Fragment)
    (embedResp : EmbedResponse) (rows : List Int) (rerankResp : RerankResponse)
    (llmResp : LLMResponse)
    (hstatus : embedResp.status = 200) (hdata : embedResp.data ≠ []) :
    (search_index rows chunks = [] →
      run_query query chunks embedResp rows rerankResp llmResp = Except.ok "") ∧
    ((rerank_results query (search_index rows chunks) rerankResp).1 = Except.ok [] →
      run_query query chunks embedResp rows rerankResp llmResp = Except.ok "") := by
  obtain ⟨e, hembed⟩ := embed_query_of_success embedResp hstatus hdata
  constructor
  · intro hs
    unfold run_query
    simp only [hembed, hs]
    simp
  · intro hr
    unfold run_query
    simp only [hembed]
    by_cases hs : search_index rows chunks = []
    · simp [hs]
    · simp only [if_neg hs, hr]
      simp

/-- Witness for C2 at a concrete input: an empty fragment store, a
successful embedding response and an empty row list give an empty
search result, and run_query answers the empty string. -/
theorem run_query_degrades_to_empty_witness :
    run_query "q" [] ⟨200, [[0]]⟩ [] ⟨200, []⟩ ⟨200, []⟩ = Except.ok "" :=
  (run_query_degrades_to_empty "q" [] ⟨200, [[0]]⟩ [] ⟨200, []⟩ ⟨200, []⟩ rfl
    (by decide)).1 rfl

/-- C9: a search hit exists only when the fragment store is non-empty,
and on an empty fragment store a successful embedding leads run_query
to the empty answer, never to the positional access of the reference
fragment chunks[0]. -/
theorem run_query_empty_store_safe :
    (∀ (rows : List Int) (chunks : List Fragment),
      search_index rows chunks ≠ [] → chunks ≠ []) ∧
    (∀ (query : String) (embedResp : EmbedResponse) (rows : List Int)
      (rerankResp : RerankResponse) (llmResp : LLMResponse),
      embedResp.status = 200 → embedResp.data ≠ [] →
      run_query query [] embedResp rows rerankResp llmResp = Except.ok "") := by
  constructor
  · intro rows chunks hne hchunks
    subst hchunks
    exact hne (search_index_nil rows)
  · intro query embedResp rows rerankResp llmResp h200 hdata
    obtain ⟨e, hembed⟩ := embed_query_of_success embedResp h200 hdata
    unfold run_query
    simp only [hembed, search_index_nil]
    simp

/-- Witness for C9 at a concrete input: an empty fragment store with a
successful embedding and a non-empty row list. -/
theorem run_query_empty_store_safe_witness :
    run_query "s" [] ⟨200, [[1]]⟩ [3] ⟨200, []⟩ ⟨500, []⟩ = Except.ok "" :=
  run_query_empty_store_safe.2 "s" ⟨200, [[1]]⟩ [3] ⟨200, []⟩ ⟨500, []⟩ rfl (by decide)

theorem parse_questions_length_le (content : String) :
    (parse_questions content).length ≤ 3 := by
  unfold parse_questions
  calc (((((pyStrip content).splitOn "\n").filterMap (fun q =>
        if pyStrip q = "" then none else some (pyLStripMarkers (pyStrip q)))).filter
          (fun q => 10 < q.length)).take 3).length
      ≤ 3 := by
        rw [List.length_take]
        exact min_le_left _ _

/-- C5: the related-questions step returns at most three items for
every original query, answer and remote outcome, a raised remote call
returns the empty list, and a non-success status returns the empty
list. -/
theorem generate_related_questions_bound (original_query answer : String)
    (resp : Except Unit LLMResponse) :
    (generate_related_questions original_query answer resp).length ≤ 3 ∧
    generate_related_questions original_query answer (Except.error ()) = [] ∧
    (∀ r : LLMResponse, r.status ≠ 200 →
      generate_related_questions original_query answer (Except.ok r) = []) := by
  refine ⟨?_, rfl, ?_⟩
  · unfold generate_related_questions
    cases resp with
    | error e => simp
    | ok r =>
      by_cases hs : r.status = 200
      · cases hc : r.choices with
        | nil => simp [hs, hc]
        | cons c cs => simp [hs, hc, parse_questions_length_le]
      · simp [hs]
  · intro r hr
    unfold generate_related_questions
    simp [hr]

/-- Witness for C5 at a concrete input: a response with status 404. -/
theorem generate_related_questions_bound_witness :
    (generate_related_questions "q" "a" (Except.ok ⟨404, ["line"]⟩)).length ≤ 3 ∧
    generate_related_questions "q" "a" (Except.ok ⟨404, ["line"]⟩) = [] :=
  ⟨(generate_related_questions_bound "q" "a" (Except.ok ⟨404, ["line"]⟩)).1,
   (generate_related_questions_bound "q" "a" (Except.ok ⟨404, ["line"]⟩)).2.2
     ⟨404, ["line"]⟩ (by decide)⟩

/-- Counterexample to C6 as stated: the two-character text formed by
the Arabic-Indic digit one (code point 0x661, which is not alphabetic)
followed by the Latin letter a.  The code counts every character of the
Arabic block, so it sees one Arabic character against one alphabetic
character and classifies rtl; counting only alphabetic characters of
the Arabic script, as the claim words it, yields a zero share and the
classification ltr. -/
theorem detect_language_counts_nonalphabetic :
    detect_language "١a" = "rtl" ∧ detectDirectionSpec "١a" = "ltr" := by
  constructor <;> rfl

/-- C6 amended: detect_language counts every character of the Arabic
code block 0x600 to 0x6FF, alphabetic or not, against the alphabetic
characters of the text, and classifies rtl exactly when the text has at
least one alphabetic character and the block count exceeds half the
alphabetic count; a text with no alphabetic characters is classified
ltr; the scenario values hello to LTR, مرحبا to RTL and 123 to LTR all
hold. -/
theorem detect_language_characterisation :
    (∀ text : String,
      (detect_language text = "rtl" ↔
        0 < text.toList.countP pyIsAlpha ∧
        text.toList.countP pyIsAlpha < 2 * text.toList.countP inArabicRange) ∧
      (text.toList.countP pyIsAlpha = 0 → detect_language text = "ltr")) ∧
    detect_language "hello" = "ltr" ∧ detect_language "مرحبا" = "rtl" ∧
    detect_language "123" = "ltr" := by
  refine ⟨?_, rfl, rfl, rfl⟩
  intro text
  unfold detect_language
  constructor
  · by_cases h : 0 < text.toList.countP pyIsAlpha ∧
        text.toList.countP pyIsAlpha < 2 * text.toList.countP inArabicRange
    · rw [if_pos h]
      exact iff_of_true rfl h
    · rw [if_neg h]
      exact iff_of_false (by decide) h
  · intro h0
    have hneg : ¬(0 < text.toList.countP pyIsAlpha ∧
        text.toList.countP pyIsAlpha < 2 * text.toList.countP inArabicRange) := by
      rw [h0]
      simp
    rw [if_neg hneg]

/-- Witness for the amended C6 at a concrete input: the digit-only text
123 has no alphabetic character and is classified ltr. -/
theorem detect_language_characterisation_witness :
    detect_language "123" = "ltr" :=
  (detect_language_characterisation.1 "123").2 (by decide)

/-- C7 fails on the code: on a query answered successfully by the
pipeline, the ask endpoint returns a body carrying only the answer
field and no related-questions field, and src/api.py contains no call
of generate_related_questions at all; here evaluated at the query q
with the pipeline answer A. -/
theorem ask_question_lacks_related_questions :
    ask_question (some "q") (Except.ok "A") = AskOutcome.ok ⟨some "A", none⟩ := by
  rfl

/-- C8 fails on the code for the vector-index artifact: on a missing
index file faiss.read_index raises RuntimeError, which the except
clause at src/rag.py line 68 (naming only FileNotFoundError) does not
catch, so loading propagates a recoverable exception to the caller
instead of exiting the process — contradicting the docstring of
load_files itself, which promises SystemExit when files are missing.
Evaluated here at the failing input, an absent index artifact with a
present fragment store; the two halves of the claim that do hold are
also evaluated: an absent fragment-store artifact exits with the
nonzero status 1, and on success both artifacts are loaded with the
vector count and the fragment count recorded. -/
theorem load_files_missing_index_raises :
    load_files none (some demoChunks) =
      LoadOutcome.raised "RuntimeError: could not open index file" ∧
    load_files (some 7) none = LoadOutcome.exited 1 ∧
    load_files (some 7) (some demoChunks) = LoadOutcome.loaded 7 demoChunks.length :=
  ⟨rfl, rfl, rfl⟩

theorem contextLoop_ok_iff :
    ∀ (hits : List RankedHit) (acc : String),
      (∃ s, contextLoop hits acc = Except.ok s) ↔
        ∀ h ∈ hits, ∃ t, h.document.textField = some t := by
  intro hits
  induction hits with
  | nil => intro acc; simp [contextLoop]
  | cons r rest ih =>
    intro acc
    obtain ⟨doc, score, aid⟩ := r
    cases doc with
    | str v =>
      simp only [contextLoop]
      constructor
      · intro ⟨s, hs⟩
        exact absurd hs (by simp)
      · intro hall
        obtain ⟨t, ht⟩ := hall ⟨DocVal.str v, score, aid⟩ (List.mem_cons_self _ _)
        exact absurd ht (by simp [DocVal.textField])
    | obj fields =>
      simp only [contextLoop]
      cases hfind : (fields.find? (fun p => p.1 = "text")).map Prod.snd with
      | none =>
        simp only [hfind]
        constructor
        · intro ⟨s, hs⟩
          exact absurd hs (by simp)
        · intro hall
          obtain ⟨t, ht⟩ := hall ⟨DocVal.obj fields, score, aid⟩ (List.mem_cons_self _ _)
          simp [DocVal.textField, hfind] at ht
      | some t =>
        simp only [hfind]
        rw [ih]
        constructor
        · intro hrest h hmem
          rcases List.mem_cons.mp hmem with hm | hm
          · subst hm
            exact ⟨t, by simp [DocVal.textField, hfind]⟩
          · exact hrest h hm
        · intro hall h hmem
          exact hall h (List.mem_cons_of_mem _ hmem)

/-- C10: build_prompt succeeds exactly when every ranked hit carries a
document object with a text field; in particular any ranked hit whose
document is a plain string makes build_prompt raise instead of
producing a prompt, and that shape does reach build_prompt because
rerank_results copies each response document value into its output
verbatim. -/
theorem build_prompt_requires_document_text :
    (∀ (q ref : String) (hits : List RankedHit),
      (∃ p, build_prompt q hits ref = Except.ok p) ↔
        ∀ h ∈ hits, ∃ t, h.document.textField = some t) ∧
    (∀ (q ref : String) (hits : List RankedHit) (h : RankedHit) (s : String),
      h ∈ hits → h.document = DocVal.str s →
      ∃ e, build_prompt q hits ref = Except.error e) ∧
    (∀ (query : String) (documents : List SearchHit) (resp : RerankResponse)
      (l : List RankedHit),
      (rerank_results query documents resp).1 = Except.ok l →
      ∀ hit ∈ l, ∃ item ∈ resp.results, hit.document = item.document) := by
  have hmain : ∀ (q ref : String) (hits : List RankedHit),
      (∃ p, build_prompt q hits ref = Except.ok p) ↔
        ∀ h ∈ hits, ∃ t, h.document.textField = some t := by
    intro q ref hits
    unfold build_prompt
    rw [← contextLoop_ok_iff hits ""]
    constructor
    · intro ⟨p, hp⟩
      cases hcl : contextLoop hits "" with
      | ok s => exact ⟨s, rfl⟩
      | error e => rw [hcl] at hp; exact absurd hp (by simp [Except.map])
    · intro ⟨s, hs⟩
      rw [hs]
      exact ⟨_, rfl⟩
  refine ⟨hmain, ?_, ?_⟩
  · intro q ref hits h s hmem hdoc
    cases hbp : build_prompt q hits ref with
    | error e => exact ⟨e, rfl⟩
    | ok p =>
      have := (hmain q ref hits).mp ⟨p, hbp⟩ h hmem
      obtain ⟨t, ht⟩ := this
      rw [hdoc] at ht
      exact absurd ht (by simp [DocVal.textField])
  · intro query documents resp l hok hit hmem
    have hl := rerank_results_ok_char query documents resp l hok
    by_cases hd : documents = []
    · rw [if_pos hd] at hl
      subst hl
      exact absurd hmem (by simp)
    · rw [if_neg hd] at hl
      subst hl
      obtain ⟨item, hitem, hres⟩ := List.mem_filterMap.mp hmem
      exact ⟨item, hitem, (resolveRerankItem_some hres).1⟩

/-- Witness for C10 at a concrete input: one ranked hit whose document
is the plain string A makes build_prompt raise. -/
theorem build_prompt_requires_document_text_witness :
    ∃ e, build_prompt "q" [⟨DocVal.str "A", 0, "1"⟩] "ref" = Except.error e :=
  build_prompt_requires_document_text.2.1 "q" "ref" [⟨DocVal.str "A", 0, "1"⟩]
    ⟨DocVal.str "A", 0, "1"⟩ "A" (by simp) rfl

end LaborRag
